import Mathlib

set_option maxRecDepth 10000
set_option maxHeartbeats 1600000
set_option exponentiation.threshold 2048

/-!
Shallow embedding of the password strength analyzer in `password_checker.py`
(class `PasswordAnalyzer`), together with theorems checking the
natural-language specification against it.

Modelling conventions:
- A Python string is a `List Char`; `len` is `List.length`.
- Python integers are `Nat` (they are arbitrary precision and never negative
  here); strength scores are passed as `Int` where the code would accept any
  integer.
- `str.lower` and `re.IGNORECASE` are modelled by ASCII case folding, which is
  what they do on the ASCII strings all fixed word lists and patterns consist
  of.
- Fallible computations return `Except PyError _`.  `calculate_score` divides
  by `len(criteria)` and so raises `ZeroDivisionError` on an empty criteria
  set; `estimate_crack_time` computes `combinations / (2 * guesses_per_second)`
  with Python float true-division, which raises `OverflowError` once the exact
  quotient reaches the double-precision overflow threshold `2^1024 - 2^970`
  (the smallest real that rounds to infinity under round-to-nearest-even).
  Below that threshold the float comparisons and truncations in the bucket
  table agree with exact integer arithmetic, because every bucket boundary and
  every truncated quotient is separated from the nearest representable hazard
  by far more than one unit in the last place; the embedding therefore uses
  exact `Nat` arithmetic there.
-/

/-- Errors the Python code can raise, plus the `InvalidState` error that the
specification's error taxonomy postulates for score computation. -/
inductive PyError where
  | zeroDivisionError
  | overflowError
  | invalidState
deriving DecidableEq

/-- One entry of the criteria dictionary built by `check_criteria`:
the `met`/`label`/`description` fields of the inner Python dict. -/
structure Criterion where
  met : Bool
  label : String
  description : String
deriving DecidableEq

/-- The criteria dictionary built by `check_criteria`: nine fixed keys in
insertion order. -/
structure CriteriaSet where
  length_8 : Criterion
  length_12 : Criterion
  lowercase : Criterion
  uppercase : Criterion
  numbers : Criterion
  special_chars : Criterion
  not_common : Criterion
  no_repeats : Criterion
  no_sequences : Criterion
deriving DecidableEq

/-- The regex class `[a-z]` applied to one character. -/
def isLowerAZ (c : Char) : Bool := 'a' ≤ c && c ≤ 'z'

/-- The regex class `[A-Z]` applied to one character. -/
def isUpperAZ (c : Char) : Bool := 'A' ≤ c && c ≤ 'Z'

/-- The regex class `[0-9]` applied to one character. -/
def isDigit09 (c : Char) : Bool := '0' ≤ c && c ≤ '9'

/-- The regex class `[^a-zA-Z0-9]` applied to one character. -/
def isSpecialChar (c : Char) : Bool := !(isLowerAZ c || isUpperAZ c || isDigit09 c)

/-- `str.lower` on one character (ASCII case folding). -/
def lowerChar (c : Char) : Char :=
  if isUpperAZ c then Char.ofNat (c.toNat + 32) else c

/-- `password.lower()` (ASCII case folding). -/
def lowerStr (s : List Char) : List Char := s.map lowerChar

/-- `self.common_passwords`, the list built in `PasswordAnalyzer.__init__`. -/
def common_passwords : List (List Char) :=
  ([ "password", "123456", "password123", "admin", "qwerty",
     "letmein", "welcome", "monkey", "1234567890", "abc123",
     "password1", "123456789", "welcome123", "admin123", "root",
     "toor", "pass", "test", "guest", "login", "master", "hello",
     "sunshine", "princess", "football", "charlie", "aa123456" ] :
   List String).map String.toList

/-- `pat` occurs at the very start of `s`. -/
def leadsWith : List Char → List Char → Bool
  | [], _ => true
  | _ :: _, [] => false
  | a :: pat, b :: s => a == b && leadsWith pat s

/-- `pat` occurs somewhere in `s` (`re.search` with a literal pattern). -/
def hasSub (pat : List Char) : List Char → Bool
  | [] => leadsWith pat []
  | b :: s => leadsWith pat (b :: s) || hasSub pat s

/-- `re.search(r'(.)\1{2,}', password)`: some character other than a newline
(which `.` does not match) occurs three or more times in a row. -/
def hasTripleRun : List Char → Bool
  | a :: b :: c :: rest =>
      (a == b && b == c && a != '\n') || hasTripleRun (b :: c :: rest)
  | _ => false

/-- The alternatives of the pattern `123|abc|qwe|asd|zxc`. -/
def seqPatterns : List (List Char) :=
  ([ "123", "abc", "qwe", "asd", "zxc" ] : List String).map String.toList

/-- `re.search(r'123|abc|qwe|asd|zxc', password, re.IGNORECASE)`:
the patterns are lower case, so folding the password suffices. -/
def hasSeqPattern (password : List Char) : Bool :=
  seqPatterns.any (fun pat => hasSub pat (lowerStr password))

/-- `PasswordAnalyzer.check_criteria`. -/
def check_criteria (password : List Char) : CriteriaSet where
  length_8 :=
    { met := decide (8 ≤ password.length)
      label := "Minimum 8 characters"
      description := "Longer passwords are harder to crack" }
  length_12 :=
    { met := decide (12 ≤ password.length)
      label := "12+ characters (recommended)"
      description := "Significantly increases security" }
  lowercase :=
    { met := password.any isLowerAZ
      label := "Lowercase letters"
      description := "Include a-z characters" }
  uppercase :=
    { met := password.any isUpperAZ
      label := "Uppercase letters"
      description := "Include A-Z characters" }
  numbers :=
    { met := password.any isDigit09
      label := "Numbers"
      description := "Include 0-9 digits" }
  special_chars :=
    { met := password.any isSpecialChar
      label := "Special characters"
      description := "Include symbols like !@#$%" }
  not_common :=
    { met := decide (lowerStr password ∉ common_passwords)
      label := "Not a common password"
      description := "Avoid easily guessable passwords" }
  no_repeats :=
    { met := !hasTripleRun password
      label := "No repeated characters"
      description := "Avoid patterns like 'aaa' or '111'" }
  no_sequences :=
    { met := !hasSeqPattern password
      label := "No sequential patterns"
      description := "Avoid keyboard patterns" }

/-- `criteria.values()` of the dictionary built by `check_criteria`,
in insertion order. -/
def criteriaValues (cs : CriteriaSet) : List Criterion :=
  [ cs.length_8, cs.length_12, cs.lowercase, cs.uppercase, cs.numbers,
    cs.special_chars, cs.not_common, cs.no_repeats, cs.no_sequences ]

/-- `PasswordAnalyzer.calculate_score`.  Python evaluates
`int((met_criteria / len(criteria)) * 100)` with float division; for the
nine-element criteria sets produced by `check_criteria` (and for any
`met_criteria ≤ len(criteria) ≤ 9`) that equals the exact
`floor(100 * met_criteria / len(criteria))` used here.  On an empty
dictionary the division raises `ZeroDivisionError`. -/
def calculate_score (criteria : List Criterion) : Except PyError Nat :=
  if criteria.length = 0 then Except.error PyError.zeroDivisionError
  else Except.ok (min 100 (100 * criteria.countP (fun c => c.met) / criteria.length))

/-- `PasswordAnalyzer.get_strength_level`. -/
def get_strength_level (score : Int) : String × String :=
  if 80 ≤ score then ("Very Strong", "🟢")
  else if 60 ≤ score then ("Strong", "🔵")
  else if 40 ≤ score then ("Moderate", "🟡")
  else if 20 ≤ score then ("Weak", "🟠")
  else ("Very Weak", "🔴")

/-- `guesses_per_second = 1_000_000_000` in `estimate_crack_time`. -/
def guesses_per_second : Nat := 1000000000

/-- The smallest `combinations` for which Python raises `OverflowError` when
evaluating `combinations / (2 * guesses_per_second)`: the exact quotient then
reaches `2^1024 - 2^970`, the overflow threshold of double precision under
round-to-nearest-even. -/
def floatOverflowBound : Nat := (2 ^ 1024 - 2 ^ 970) * (2 * guesses_per_second)

/-- The `charset_size` accumulation at the top of `estimate_crack_time`
(four `re.search` class tests, each adding its class size). -/
def charsetSizeOf (password : List Char) : Nat :=
  (if password.any isLowerAZ then 26 else 0) +
  (if password.any isUpperAZ then 26 else 0) +
  (if password.any isDigit09 then 10 else 0) +
  (if password.any isSpecialChar then 32 else 0)

/-- `PasswordAnalyzer.estimate_crack_time`.  `combinations` is
`charsetSizeOf password ^ password.length`; `seconds_to_crack` is exactly
`combinations / (2 * 10^9)`, so each float comparison
`seconds_to_crack < B` is `combinations < B * 2 * 10^9` and each truncation
`int(seconds_to_crack / U)` is `combinations / (U * 2 * 10^9)`:
- `< 1 s`        ⟺ `combinations < 2000000000`
- `< 60 s`       ⟺ `combinations < 120000000000`
- `< 3600 s`     ⟺ `combinations < 7200000000000`
- `< 86400 s`    ⟺ `combinations < 172800000000000`
- `< 31536000 s` ⟺ `combinations < 63072000000000000`
- `< 31536000000 s` ⟺ `combinations < 63072000000000000000`. -/
def estimate_crack_time (password : List Char) : Except PyError String :=
  if password.length = 0 then Except.ok ("N/A")
  else if charsetSizeOf password = 0 then Except.ok ("Instantly")
  else if floatOverflowBound ≤ charsetSizeOf password ^ password.length then
    Except.error PyError.overflowError
  else if charsetSizeOf password ^ password.length < 2000000000 then
    Except.ok ("Instantly")
  else if charsetSizeOf password ^ password.length < 120000000000 then
    Except.ok (toString (charsetSizeOf password ^ password.length / 2000000000) ++ " seconds")
  else if charsetSizeOf password ^ password.length < 7200000000000 then
    Except.ok (toString (charsetSizeOf password ^ password.length / 120000000000) ++ " minutes")
  else if charsetSizeOf password ^ password.length < 172800000000000 then
    Except.ok (toString (charsetSizeOf password ^ password.length / 7200000000000) ++ " hours")
  else if charsetSizeOf password ^ password.length < 63072000000000000 then
    Except.ok (toString (charsetSizeOf password ^ password.length / 172800000000000) ++ " days")
  else if charsetSizeOf password ^ password.length < 63072000000000000000 then
    Except.ok (toString (charsetSizeOf password ^ password.length / 63072000000000000) ++ " years")
  else Except.ok ("Centuries")

/-- `PasswordAnalyzer.get_warnings_and_suggestions`: straight-line appends to
the `warnings` and `suggestions` lists, one `let` per Python `append`. -/
def get_warnings_and_suggestions (password : List Char) (criteria : CriteriaSet) :
    List String × List String :=
  let ws0 : List String := []
  let sg0 : List String := []
  let ws1 := if password.length < 8 then ws0 ++ ["Password is too short"] else ws0
  let sg1 := if password.length < 8 then sg0 ++ ["Use at least 8 characters"] else sg0
  let sg2 := if criteria.lowercase.met = false then sg1 ++ ["Add lowercase letters"] else sg1
  let sg3 := if criteria.uppercase.met = false then sg2 ++ ["Add uppercase letters"] else sg2
  let sg4 := if criteria.numbers.met = false then sg3 ++ ["Add numbers"] else sg3
  let sg5 := if criteria.special_chars.met = false then sg4 ++ ["Add special characters"] else sg4
  let ws2 := if lowerStr password ∈ common_passwords then ws1 ++ ["This is a commonly used password"] else ws1
  let sg6 := if lowerStr password ∈ common_passwords then sg5 ++ ["Choose a unique password"] else sg5
  let ws3 := if hasTripleRun password = true then ws2 ++ ["Contains repeated characters"] else ws2
  let sg7 := if hasTripleRun password = true then sg6 ++ ["Avoid character repetition"] else sg6
  let ws4 := if hasSeqPattern password = true then ws3 ++ ["Contains keyboard patterns"] else ws3
  let sg8 := if hasSeqPattern password = true then sg7 ++ ["Avoid sequential patterns"] else sg7
  (ws4, sg8)

/-- The record returned by `PasswordAnalyzer.analyze_password`. -/
structure AnalysisResult where
  password : List Char
  score : Nat
  strength : String
  color_emoji : String
  crack_time : String
  criteria : CriteriaSet
  warnings : List String
  suggestions : List String
deriving DecidableEq

/-- `PasswordAnalyzer.analyze_password`: runs the pipeline in source order;
an exception raised by any stage propagates. -/
def analyze_password (password : List Char) : Except PyError AnalysisResult :=
  let criteria := check_criteria password
  match calculate_score (criteriaValues criteria) with
  | Except.error e => Except.error e
  | Except.ok score =>
    match get_strength_level (Int.ofNat score) with
    | (strength, color_emoji) =>
      match estimate_crack_time password with
      | Except.error e => Except.error e
      | Except.ok crack_time =>
        match get_warnings_and_suggestions password criteria with
        | (warnings, suggestions) =>
          Except.ok
            { password := password
              score := score
              strength := strength
              color_emoji := color_emoji
              crack_time := crack_time
              criteria := criteria
              warnings := warnings
              suggestions := suggestions }

/-- The advisory generator as the specification words it: each of the eight
triggers contributes its fixed strings, independently, in the fixed display
order. -/
def advisorySpec (password : List Char) (criteria : CriteriaSet) :
    List String × List String :=
  ((if password.length < 8 then ["Password is too short"] else []) ++
   (if lowerStr password ∈ common_passwords then ["This is a commonly used password"] else []) ++
   (if hasTripleRun password = true then ["Contains repeated characters"] else []) ++
   (if hasSeqPattern password = true then ["Contains keyboard patterns"] else []),
   (if password.length < 8 then ["Use at least 8 characters"] else []) ++
   (if criteria.lowercase.met = false then ["Add lowercase letters"] else []) ++
   (if criteria.uppercase.met = false then ["Add uppercase letters"] else []) ++
   (if criteria.numbers.met = false then ["Add numbers"] else []) ++
   (if criteria.special_chars.met = false then ["Add special characters"] else []) ++
   (if lowerStr password ∈ common_passwords then ["Choose a unique password"] else []) ++
   (if hasTripleRun password = true then ["Avoid character repetition"] else []) ++
   (if hasSeqPattern password = true then ["Avoid sequential patterns"] else []))

/-- Claim C2: for every criteria set produced by `check_criteria` (which
always has exactly 9 entries), `calculate_score` returns
`floor(100 * met_count / 9)`; the result lies in `[0, 100]`, equals `0` iff
zero criteria are met, and equals `100` iff all nine criteria are met. -/
theorem calculate_score_on_check_criteria (p : List Char) :
    (criteriaValues (check_criteria p)).length = 9 ∧
    calculate_score (criteriaValues (check_criteria p)) =
      Except.ok (100 * (criteriaValues (check_criteria p)).countP (fun c => c.met) / 9) ∧
    100 * (criteriaValues (check_criteria p)).countP (fun c => c.met) / 9 ≤ 100 ∧
    (100 * (criteriaValues (check_criteria p)).countP (fun c => c.met) / 9 = 0 ↔
      (criteriaValues (check_criteria p)).countP (fun c => c.met) = 0) ∧
    (100 * (criteriaValues (check_criteria p)).countP (fun c => c.met) / 9 = 100 ↔
      (criteriaValues (check_criteria p)).countP (fun c => c.met) = 9) := by
  have hlen : (criteriaValues (check_criteria p)).length = 9 := rfl
  have hm : (criteriaValues (check_criteria p)).countP (fun c => c.met) ≤ 9 := by
    calc (criteriaValues (check_criteria p)).countP (fun c => c.met)
        ≤ (criteriaValues (check_criteria p)).length := List.countP_le_length _
      _ = 9 := hlen
  refine ⟨hlen, ?_, by omega, by omega, by omega⟩
  unfold calculate_score
  rw [hlen]
  rw [if_neg (by decide)]
  rw [Nat.min_eq_right (by omega)]

/-- Claim C3: on the empty password, `check_criteria` leaves `length_8`,
`length_12`, `lowercase`, `uppercase`, `numbers` and `special_chars` unmet,
while `not_common`, `no_repeats` and `no_sequences` are met. -/
theorem check_criteria_empty_string :
    (check_criteria []).length_8.met = false ∧
    (check_criteria []).length_12.met = false ∧
    (check_criteria []).lowercase.met = false ∧
    (check_criteria []).uppercase.met = false ∧
    (check_criteria []).numbers.met = false ∧
    (check_criteria []).special_chars.met = false ∧
    (check_criteria []).not_common.met = true ∧
    (check_criteria []).no_repeats.met = true ∧
    (check_criteria []).no_sequences.met = true := by decide

/-- On an empty criteria set `calculate_score` raises the division-by-zero
error, not the `InvalidState` error the specification postulates: the claim
fails at this input, which is the one input it is about. -/
theorem calculate_score_empty_not_invalid_state :
    calculate_score [] = Except.error PyError.zeroDivisionError ∧
    calculate_score [] ≠ Except.error PyError.invalidState := by
  constructor
  · rfl
  · intro h
    have h3 : (Except.error PyError.zeroDivisionError : Except PyError Nat) =
        Except.error PyError.invalidState := h
    exact PyError.noConfusion (Except.error.inj h3)

/-- Claim C5 (amended): applied to an empty criteria set, `calculate_score`
fails rather than returning a score, but the failure is the division-by-zero
error from `met_criteria / len(criteria)`, not an `InvalidState` error. -/
theorem calculate_score_empty_zero_division :
    calculate_score [] = Except.error PyError.zeroDivisionError := rfl

/-- Claim C6: `get_strength_level` is the deterministic top-down threshold
table: `≥ 80` gives "Very Strong", `60..79` gives "Strong", `40..59` gives
"Moderate", `20..39` gives "Weak", `< 20` gives "Very Weak"; in particular
scores 80, 79, 20 and 19 give "Very Strong", "Strong", "Weak", "Very Weak". -/
theorem get_strength_level_thresholds (s : Int) :
    (80 ≤ s → (get_strength_level s).1 = "Very Strong") ∧
    (60 ≤ s → s < 80 → (get_strength_level s).1 = "Strong") ∧
    (40 ≤ s → s < 60 → (get_strength_level s).1 = "Moderate") ∧
    (20 ≤ s → s < 40 → (get_strength_level s).1 = "Weak") ∧
    (s < 20 → (get_strength_level s).1 = "Very Weak") ∧
    (get_strength_level 80).1 = "Very Strong" ∧
    (get_strength_level 79).1 = "Strong" ∧
    (get_strength_level 20).1 = "Weak" ∧
    (get_strength_level 19).1 = "Very Weak" := by
  refine ⟨fun h => ?_, fun h1 h2 => ?_, fun h1 h2 => ?_, fun h1 h2 => ?_,
    fun h => ?_, by decide, by decide, by decide, by decide⟩
  · unfold get_strength_level
    rw [if_pos h]
  · unfold get_strength_level
    rw [if_neg (by omega), if_pos h1]
  · unfold get_strength_level
    rw [if_neg (by omega), if_neg (by omega), if_pos h1]
  · unfold get_strength_level
    rw [if_neg (by omega), if_neg (by omega), if_neg (by omega), if_pos h1]
  · unfold get_strength_level
    rw [if_neg (by omega), if_neg (by omega), if_neg (by omega), if_neg (by omega)]

/-- Witness for the threshold theorem: one concrete score per tier. -/
theorem get_strength_level_thresholds_witness :
    (get_strength_level 95).1 = "Very Strong" ∧
    (get_strength_level 65).1 = "Strong" ∧
    (get_strength_level 45).1 = "Moderate" ∧
    (get_strength_level 25).1 = "Weak" ∧
    (get_strength_level 5).1 = "Very Weak" :=
  ⟨(get_strength_level_thresholds 95).1 (by decide),
   (get_strength_level_thresholds 65).2.1 (by decide) (by decide),
   (get_strength_level_thresholds 45).2.2.1 (by decide) (by decide),
   (get_strength_level_thresholds 25).2.2.2.1 (by decide) (by decide),
   (get_strength_level_thresholds 5).2.2.2.2.1 (by decide)⟩

/-- Claim C9: in every criteria set produced by `check_criteria`, if the
`length_12` criterion is met then the `length_8` criterion is met. -/
theorem length_12_implies_length_8 (p : List Char)
    (h : (check_criteria p).length_12.met = true) :
    (check_criteria p).length_8.met = true := by
  simp only [check_criteria, decide_eq_true_eq] at h ⊢
  omega

/-- Witness for the length-criteria monotonicity theorem at a 13-character
password. -/
theorem length_12_implies_length_8_witness :
    (check_criteria (("OctoberBridge").toList)).length_8.met = true :=
  length_12_implies_length_8 _ (by decide)

/-- Claim C1 is refuted by this input: on a 300-character all-lowercase
password, `analyze_password` propagates the `OverflowError` that
`estimate_crack_time` raises when `combinations / (2 * guesses_per_second)`
exceeds the float range, instead of returning a result. -/
theorem analyze_password_overflow_on_long_input :
    analyze_password (List.replicate 300 'a') = Except.error PyError.overflowError := by
  rfl

/-- Claim C4 is refuted as stated: on a 250-character password the crack-time
estimator raises `OverflowError` rather than returning a bucket string such as
"Centuries". -/
theorem estimate_crack_time_raises_on_long_input :
    estimate_crack_time (List.replicate 250 'b') = Except.error PyError.overflowError ∧
    estimate_crack_time (List.replicate 250 'b') ≠ Except.ok ("Centuries") := by
  constructor
  · rfl
  · intro h
    have h3 : (Except.error PyError.overflowError : Except PyError String) =
        Except.ok ("Centuries") := h
    exact Except.noConfusion h3

/-- Claim C4 (amended): the empty password gives "N/A"; the alphabet size is
the sum of the class sizes present (a-z adds 26, A-Z adds 26, 0-9 adds 10,
anything else adds 32); and as long as `alphabet_size ^ length` stays below
the float-overflow bound, the result is chosen by the top-down bucket table
over the exact seconds-to-crack `alphabet_size ^ length / (2 * 10^9)`, with
the count for each unit the floored integer quotient.  (Beyond the bound the
code raises `OverflowError` instead.) -/
theorem estimate_crack_time_buckets (p : List Char)
    (hof : charsetSizeOf p ^ p.length < floatOverflowBound) :
    (charsetSizeOf p =
      (if ∃ c ∈ p, 'a' ≤ c ∧ c ≤ 'z' then 26 else 0) +
      (if ∃ c ∈ p, 'A' ≤ c ∧ c ≤ 'Z' then 26 else 0) +
      (if ∃ c ∈ p, '0' ≤ c ∧ c ≤ '9' then 10 else 0) +
      (if ∃ c ∈ p, ¬(('a' ≤ c ∧ c ≤ 'z') ∨ ('A' ≤ c ∧ c ≤ 'Z') ∨ ('0' ≤ c ∧ c ≤ '9'))
        then 32 else 0)) ∧
    (p = [] → estimate_crack_time p = Except.ok ("N/A")) ∧
    (p ≠ [] → charsetSizeOf p ^ p.length < 2000000000 →
      estimate_crack_time p = Except.ok ("Instantly")) ∧
    (p ≠ [] → 2000000000 ≤ charsetSizeOf p ^ p.length →
      charsetSizeOf p ^ p.length < 120000000000 →
      estimate_crack_time p =
        Except.ok (toString (charsetSizeOf p ^ p.length / 2000000000) ++ " seconds")) ∧
    (p ≠ [] → 120000000000 ≤ charsetSizeOf p ^ p.length →
      charsetSizeOf p ^ p.length < 7200000000000 →
      estimate_crack_time p =
        Except.ok (toString (charsetSizeOf p ^ p.length / 120000000000) ++ " minutes")) ∧
    (p ≠ [] → 7200000000000 ≤ charsetSizeOf p ^ p.length →
      charsetSizeOf p ^ p.length < 172800000000000 →
      estimate_crack_time p =
        Except.ok (toString (charsetSizeOf p ^ p.length / 7200000000000) ++ " hours")) ∧
    (p ≠ [] → 172800000000000 ≤ charsetSizeOf p ^ p.length →
      charsetSizeOf p ^ p.length < 63072000000000000 →
      estimate_crack_time p =
        Except.ok (toString (charsetSizeOf p ^ p.length / 172800000000000) ++ " days")) ∧
    (p ≠ [] → 63072000000000000 ≤ charsetSizeOf p ^ p.length →
      charsetSizeOf p ^ p.length < 63072000000000000000 →
      estimate_crack_time p =
        Except.ok (toString (charsetSizeOf p ^ p.length / 63072000000000000) ++ " years")) ∧
    (p ≠ [] → 63072000000000000000 ≤ charsetSizeOf p ^ p.length →
      estimate_crack_time p = Except.ok ("Centuries")) := by
  have hcs0 : ∀ hh : ¬ p = [], 2000000000 ≤ charsetSizeOf p ^ p.length →
      ¬ charsetSizeOf p = 0 := by
    intro hh hge hc0
    have hl : ¬ p.length = 0 := fun h0 => hh (List.length_eq_zero.mp h0)
    have : charsetSizeOf p ^ p.length = 0 := by
      rw [hc0]
      exact zero_pow hl
    omega
  refine ⟨?_, ?_, ?_, ?_, ?_, ?_, ?_, ?_, ?_⟩
  · have h1 : (p.any isLowerAZ = true) ↔ (∃ c ∈ p, 'a' ≤ c ∧ c ≤ 'z') := by
      simp [List.any_eq_true, isLowerAZ]
    have h2 : (p.any isUpperAZ = true) ↔ (∃ c ∈ p, 'A' ≤ c ∧ c ≤ 'Z') := by
      simp [List.any_eq_true, isUpperAZ]
    have h3 : (p.any isDigit09 = true) ↔ (∃ c ∈ p, '0' ≤ c ∧ c ≤ '9') := by
      simp [List.any_eq_true, isDigit09]
    have h4 : (p.any isSpecialChar = true) ↔
        (∃ c ∈ p, ¬(('a' ≤ c ∧ c ≤ 'z') ∨ ('A' ≤ c ∧ c ≤ 'Z') ∨ ('0' ≤ c ∧ c ≤ '9'))) := by
      rw [List.any_eq_true]
      refine exists_congr fun c => and_congr_right fun _ => ?_
      simp only [isSpecialChar, isLowerAZ, isUpperAZ, isDigit09, Bool.not_eq_true',
        Bool.or_eq_false_iff, Bool.and_eq_false_iff, decide_eq_false_iff_not]
      tauto
    simp only [charsetSizeOf, h1, h2, h3, h4]
  · intro hp
    subst hp
    rfl
  · intro hne hlt
    have hl : ¬ p.length = 0 := fun h0 => hne (List.length_eq_zero.mp h0)
    unfold estimate_crack_time
    by_cases hc : charsetSizeOf p = 0
    · rw [if_neg hl, if_pos hc]
    · rw [if_neg hl, if_neg hc, if_neg (by omega), if_pos hlt]
  · intro hne hge hlt
    have hl : ¬ p.length = 0 := fun h0 => hne (List.length_eq_zero.mp h0)
    unfold estimate_crack_time
    rw [if_neg hl, if_neg (hcs0 hne hge), if_neg (by omega), if_neg (by omega), if_pos hlt]
  · intro hne hge hlt
    have hl : ¬ p.length = 0 := fun h0 => hne (List.length_eq_zero.mp h0)
    unfold estimate_crack_time
    rw [if_neg hl, if_neg (hcs0 hne (by omega)), if_neg (by omega), if_neg (by omega),
      if_neg (by omega), if_pos hlt]
  · intro hne hge hlt
    have hl : ¬ p.length = 0 := fun h0 => hne (List.length_eq_zero.mp h0)
    unfold estimate_crack_time
    rw [if_neg hl, if_neg (hcs0 hne (by omega)), if_neg (by omega), if_neg (by omega),
      if_neg (by omega), if_neg (by omega), if_pos hlt]
  · intro hne hge hlt
    have hl : ¬ p.length = 0 := fun h0 => hne (List.length_eq_zero.mp h0)
    unfold estimate_crack_time
    rw [if_neg hl, if_neg (hcs0 hne (by omega)), if_neg (by omega), if_neg (by omega),
      if_neg (by omega), if_neg (by omega), if_neg (by omega), if_pos hlt]
  · intro hne hge hlt
    have hl : ¬ p.length = 0 := fun h0 => hne (List.length_eq_zero.mp h0)
    unfold estimate_crack_time
    rw [if_neg hl, if_neg (hcs0 hne (by omega)), if_neg (by omega), if_neg (by omega),
      if_neg (by omega), if_neg (by omega), if_neg (by omega), if_neg (by omega),
      if_pos hlt]
  · intro hne hge
    have hl : ¬ p.length = 0 := fun h0 => hne (List.length_eq_zero.mp h0)
    unfold estimate_crack_time
    rw [if_neg hl, if_neg (hcs0 hne (by omega)), if_neg (by omega), if_neg (by omega),
      if_neg (by omega), if_neg (by omega), if_neg (by omega), if_neg (by omega),
      if_neg (by omega)]

/-- Witness for the bucket theorem: a six-letter lowercase password cracks
"Instantly", a seven-letter one lands in the seconds bucket. -/
theorem estimate_crack_time_buckets_witness :
    estimate_crack_time (("qwerty").toList) = Except.ok ("Instantly") ∧
    estimate_crack_time (("stapler").toList) =
      Except.ok (toString
        (charsetSizeOf (("stapler").toList) ^ (("stapler").toList).length / 2000000000) ++
        " seconds") :=
  ⟨(estimate_crack_time_buckets (("qwerty").toList) (by decide)).2.2.1
      (by decide) (by decide),
   (estimate_crack_time_buckets (("stapler").toList) (by decide)).2.2.2.1
      (by decide) (by decide) (by decide)⟩

/-- Claim C7: the advisory generator produces its warnings and suggestions
exactly from the eight fixed triggers in the fixed display order, each
evaluated unconditionally and independently; and on "Password" the
case-insensitive common-password match fires the commonly-used warning. -/
theorem get_warnings_and_suggestions_matches_triggers (p : List Char) (cs : CriteriaSet) :
    get_warnings_and_suggestions p cs = advisorySpec p cs ∧
    "This is a commonly used password" ∈
      (get_warnings_and_suggestions (("Password").toList)
        (check_criteria (("Password").toList))).1 := by
  constructor
  · by_cases h1 : p.length < 8 <;>
    by_cases h2 : cs.lowercase.met = false <;>
    by_cases h3 : cs.uppercase.met = false <;>
    by_cases h4 : cs.numbers.met = false <;>
    by_cases h5 : cs.special_chars.met = false <;>
    by_cases h6 : lowerStr p ∈ common_passwords <;>
    by_cases h7 : hasTripleRun p = true <;>
    by_cases h8 : hasSeqPattern p = true <;>
    simp [get_warnings_and_suggestions, advisorySpec, h1, h2, h3, h4, h5, h6, h7, h8]
  · decide

/-- Claim C10: for every password and criteria set, the warnings list is
never longer than the suggestions list (every warning trigger also appends a
suggestion). -/
theorem warnings_not_longer_than_suggestions (p : List Char) (cs : CriteriaSet) :
    (get_warnings_and_suggestions p cs).1.length ≤
      (get_warnings_and_suggestions p cs).2.length := by
  by_cases h1 : p.length < 8 <;>
  by_cases h2 : cs.lowercase.met = false <;>
  by_cases h3 : cs.uppercase.met = false <;>
  by_cases h4 : cs.numbers.met = false <;>
  by_cases h5 : cs.special_chars.met = false <;>
  by_cases h6 : lowerStr p ∈ common_passwords <;>
  by_cases h7 : hasTripleRun p = true <;>
  by_cases h8 : hasSeqPattern p = true <;>
  simp [get_warnings_and_suggestions, h1, h2, h3, h4, h5, h6, h7, h8]

/-- Claim C8: analyzing the long passphrase yields a score of at least 80 and
the strength label "Very Strong". -/
theorem analyze_passphrase_high_score :
    ∃ r, analyze_password (("correct-horse-battery-staple-2024!").toList) = Except.ok r ∧
      80 ≤ r.score ∧ r.strength = "Very Strong" := by
  refine ⟨_, rfl, ?_, ?_⟩ <;> decide
